import Mathlib

/-!
Shallow embedding of `src/node-backend-server/index.js`: a single-endpoint
Express server dispatching CRUD actions on course records to a DynamoDB
table whose name is resolved at request time through AWS Cloud Map service
discovery.

Modelling conventions:
- query parameters are strings or absent (`Option String`, `none` meaning
  absent / `undefined`);
- `Number(x)` is modelled by `jsNumber` (`none` meaning NaN), restricted to
  decimal integer literals, which covers the ids this server handles;
- `decodeURIComponent` is modelled byte-wise by `percentDecodeStr` (`none`
  meaning a `URIError` was thrown); recombination of multi-byte UTF-8
  escapes is not modelled, which is faithful for ASCII escapes;
- truthiness tests are made explicit (`jsFalsy`, `jsFalsyOptStr`).

The external collaborators (the DynamoDB document client and the Cloud Map
client) are oracles passed in as function arguments, so a theorem can pick
the success, failure, or absent-item behaviour a scenario needs.  Each
embedded function additionally returns the list of external calls it
performed, which makes properties such as "no store call is attempted"
provable.  A reference semantics for the opaque key-value store itself
(`StoreState`, `storePut`, ...) is modelled from the spec, since the store
is an external service and not part of this repository's code.
-/

/-- Equality of `Except` results is decidable when it is on both sides;
this lets concrete runs of the embedded functions be checked by `decide`. -/
instance {ε α : Type} [DecidableEq ε] [DecidableEq α] : DecidableEq (Except ε α) :=
  fun a b =>
    match a, b with
    | .error e, .error f =>
        if h : e = f then .isTrue (by rw [h]) else .isFalse (by simp [h])
    | .ok x, .ok y =>
        if h : x = y then .isTrue (by rw [h]) else .isFalse (by simp [h])
    | .error _, .ok _ => .isFalse (by simp)
    | .ok _, .error _ => .isFalse (by simp)

/-- One external call made by the server: the Cloud Map discovery call or
one of the five DynamoDB document-client commands. -/
inductive ExtCall where
  | discover
  | putOp
  | updateOp
  | getOp
  | deleteOp
  | scanOp
deriving DecidableEq

/-- A JavaScript value as it can reach `getItemDB`: `undefined`, `null`,
`NaN`, a number (integers only, which is all this server produces), or a
string. -/
inductive JSVal where
  | undef
  | null
  | nan
  | num (n : Int)
  | str (s : String)
deriving DecidableEq

/-- JavaScript truthiness: `undefined`, `null`, `NaN`, `0` and the empty
string are the falsy values. -/
def jsFalsy : JSVal → Bool
  | .undef => true
  | .null => true
  | .nan => true
  | .num n => n = 0
  | .str s => s = ""

/-- JavaScript strict equality (`===`) against the number literal `0`. -/
def jsStrictEqNumZero : JSVal → Bool
  | .num n => n = 0
  | _ => false

/-- The value of a decimal digit, if the character is one. -/
def decDigitVal (c : Char) : Option Nat :=
  let v := c.toNat
  if 48 ≤ v ∧ v ≤ 57 then some (v - 48) else none

/-- The value of a non-empty all-digit character list; `none` otherwise. -/
def decDigitsVal : List Char → Option Nat
  | [] => none
  | cs => List.foldl
      (fun acc c => acc.bind (fun n => (decDigitVal c).map (fun d => 10 * n + d)))
      (some 0) cs

/-- The numeric value of an optionally signed decimal integer string, as
JavaScript `Number()` produces on the ids this server handles; `none` is
NaN, and the empty string converts to `0`.  (JavaScript `Number` also
accepts fractions, exponents, hex and surrounding whitespace, which no id
here uses.) -/
def jsNumberOfStr (s : String) : Option Int :=
  if s = "" then some 0
  else
    match s.data with
    | '-' :: cs => (decDigitsVal cs).map (fun v => -(v : Int))
    | '+' :: cs => (decDigitsVal cs).map (fun v => (v : Int))
    | cs => (decDigitsVal cs).map (fun v => (v : Int))

/-- JavaScript `Number(x)` on an optional query parameter:
`Number(undefined)` is NaN. -/
def jsNumber : Option String → Option Int
  | none => none
  | some s => jsNumberOfStr s

/-- JavaScript `Number(x)` on a `JSVal`; on a number it is the identity. -/
def jsNumberOfVal : JSVal → Option Int
  | .undef => none
  | .null => some 0
  | .nan => none
  | .num n => some n
  | .str s => jsNumberOfStr s

/-- A number-or-NaN rendered back as a `JSVal` (used for the `ID` attribute
carried by a scan response). -/
def jsValOfKey : Option Int → JSVal
  | some n => .num n
  | none => .nan

/-- Template-literal coercion of an optional string value: `undefined`
prints as the string "undefined". -/
def jsToString : Option String → String
  | none => "undefined"
  | some s => s

/-- JavaScript `typeof` for an optional string value. -/
def jsTypeof : Option String → String
  | none => "undefined"
  | some _ => "string"

/-- JavaScript truthiness of a string-or-null-or-undefined value: falsy
exactly when the value is absent or the empty string. -/
def jsFalsyOptStr : Option String → Bool
  | none => true
  | some s => s = ""

/-- The value of a hexadecimal digit, if the character is one (codes 48-57
are the decimal digits, 65-70 upper-case A-F, 97-102 lower-case a-f). -/
def hexDigitVal (c : Char) : Option Nat :=
  let v := c.toNat
  if 48 ≤ v ∧ v ≤ 57 then some (v - 48)
  else if 65 ≤ v ∧ v ≤ 70 then some (v - 55)
  else if 97 ≤ v ∧ v ≤ 102 then some (v - 87)
  else none

/-- Byte-wise percent-decoding, the model of JavaScript
`decodeURIComponent` on a character list: each `%HH` escape becomes the
character with code `HH` and every other character is kept; a dangling or
non-hexadecimal escape is a `URIError` (`none`). -/
def percentDecodeChars : List Char → Option (List Char)
  | [] => some []
  | '%' :: h1 :: h2 :: rest =>
      match hexDigitVal h1, hexDigitVal h2 with
      | some d1, some d2 =>
          (percentDecodeChars rest).map (fun cs => Char.ofNat (16 * d1 + d2) :: cs)
      | _, _ => none
  | '%' :: _ => none
  | c :: rest => (percentDecodeChars rest).map (fun cs => c :: cs)

/-- Percent-decoding on strings. -/
def percentDecodeStr (s : String) : Option String :=
  (percentDecodeChars s.data).map String.mk

/-- JavaScript `decodeURIComponent` on an optional string: `undefined` is
first coerced to the string "undefined" and then percent-decoded; a `none`
result means a `URIError` was thrown. -/
def decodeURIComponent : Option String → Option String
  | none => percentDecodeStr "undefined"
  | some s => percentDecodeStr s

/-- The message of the JavaScript `URIError` thrown by a failed
`decodeURIComponent`, as read off `err.message` by the catch blocks. -/
def uriMalformedMsg : String := "URI malformed"

/-- A stored course record, with the DynamoDB attribute names used by the
source's `PutCommand`; `ID` is `none` when `Number` produced NaN, and the
two free-text fields may be `undefined` when the query parameter was
absent (the two URL fields cannot: `decodeURIComponent` always yields a
string when it does not throw). -/
structure Item where
  ID : Option Int
  CourseName : Option String
  CoverArt : String
  CourseUrl : String
  Author : Option String
deriving DecidableEq

/-- The document client's response to a `GetCommand`: it carries the record
under `Item` when one exists. -/
structure GetResponse where
  Item : Option Item
deriving DecidableEq

/-- One element of a `ScanCommand` response under
`ProjectionExpression: "ID"`. -/
structure ScanItem where
  ID : JSVal
deriving DecidableEq

/-- A `ScanCommand` response. -/
structure ScanResponse where
  Items : List ScanItem
deriving DecidableEq

/-- The data sent by the source's `UpdateCommand`: the key and the four
`ExpressionAttributeValues` set by its fixed `UpdateExpression`. -/
structure UpdateCommandArgs where
  ID : Option Int
  name : Option String
  coverart : String
  url : String
  author : Option String
deriving DecidableEq

/-- The attribute map of a discovered instance, reduced to the one
attribute the source reads; `tablename = none` means the attribute is
absent from the map. -/
structure AttributeMap where
  tablename : Option String
deriving DecidableEq

/-- One instance in a Cloud Map discovery response. -/
structure ServiceInstance where
  Attributes : AttributeMap
deriving DecidableEq

/-- The Cloud Map `DiscoverInstancesCommand` response; `Instances = none`
models the field being absent from the response. -/
structure DiscoverResponse where
  Instances : Option (List ServiceInstance)
deriving DecidableEq

/-- The query-string parameters the server reads; each is a string or
absent. -/
structure Query where
  action : Option String
  id : Option String
  courseName : Option String
  courseCoverArt : Option String
  courseUrl : Option String
  courseAuthor : Option String
deriving DecidableEq

/-- The response body object before JSON serialization; fields a branch
does not set are `none`. -/
structure ResponseBody where
  success : Bool
  action : Option String
  error : Option String
  allCourses : Option (List (Option Item))
deriving DecidableEq

/-- The `{statusCode, body}` envelope returned by `requestHandler`. -/
structure HttpResp where
  statusCode : Nat
  body : ResponseBody
deriving DecidableEq

/-- `getTableName`, as a function of the discovery response it receives:
`(response.Instances && response.Instances.length >= 1) ?
response.Instances[0].Attributes.tablename : null`.  The fixed namespace
name, service name and query filter sent with the command do not affect
the returned value and are not modelled. -/
def getTableName (response : DiscoverResponse) : Option String :=
  match response.Instances with
  | some (inst :: _) => inst.Attributes.tablename
  | _ => none

/-- `putItemDB`: builds the five-attribute item (converting `id` with
`Number` and percent-decoding the two URL fields, which can throw) and
sends a `PutCommand`; a thrown error is caught and surfaced as
`{error: err.message}` (`Except.error`).  The document client is the
oracle `send`, whose successful response type is abstract because the
caller only tests the result for an `error` field. -/
def putItemDB {π : Type} (courseObject : Query) (send : Item → Except String π) :
    Except String π × List ExtCall :=
  match decodeURIComponent courseObject.courseCoverArt with
  | none => (Except.error uriMalformedMsg, [])
  | some coverArt =>
      match decodeURIComponent courseObject.courseUrl with
      | none => (Except.error uriMalformedMsg, [])
      | some courseUrl =>
          (send { ID := jsNumber courseObject.id
                , CourseName := courseObject.courseName
                , CoverArt := coverArt
                , CourseUrl := courseUrl
                , Author := courseObject.courseAuthor },
           [ExtCall.putOp])

/-- `updateItemDB`: sends an `UpdateCommand` keyed by `Number(id)` whose
fixed `UpdateExpression` sets `CourseName`, `CourseUrl`, `CoverArt` and
`Author`; the two URL values are percent-decoded first (which can throw
and be caught, as in `putItemDB`). -/
def updateItemDB {υ : Type} (courseObject : Query)
    (send : UpdateCommandArgs → Except String υ) :
    Except String υ × List ExtCall :=
  match decodeURIComponent courseObject.courseCoverArt with
  | none => (Except.error uriMalformedMsg, [])
  | some coverart =>
      match decodeURIComponent courseObject.courseUrl with
      | none => (Except.error uriMalformedMsg, [])
      | some url =>
          (send { ID := jsNumber courseObject.id
                , name := courseObject.courseName
                , coverart := coverart
                , url := url
                , author := courseObject.courseAuthor },
           [ExtCall.updateOp])

/-- `getItemDB`: returns `null` immediately (making no store call) when
`!id && id !== 0`; otherwise sends a `GetCommand` keyed by `Number(id)`.
A send that throws is caught and also yields `null`, so the oracle returns
`none` for a throwing call and `some response` otherwise. -/
def getItemDB (id : JSVal) (send : Option Int → Option GetResponse) :
    Option GetResponse × List ExtCall :=
  if jsFalsy id && !jsStrictEqNumZero id then (none, [])
  else (send (jsNumberOfVal id), [ExtCall.getOp])

/-- `getAllItemsDB`: scans the table for its `ID`s, then fetches every
record through `getItemDB` and pushes `course.Item` for each truthy
`course`; a `getItemDB` that returned `null` is silently skipped.  The
pushes happen in completion order under `Promise.all`; the embedding lists
them in key order, which the length and membership properties proved below
do not distinguish.  A throwing scan is caught and surfaced as
`{error: err.message}`. -/
def getAllItemsDB (sendScan : Except String ScanResponse)
    (sendGet : Option Int → Option GetResponse) :
    Except String (List (Option Item)) × List ExtCall :=
  match sendScan with
  | Except.error e => (Except.error e, [ExtCall.scanOp])
  | Except.ok response =>
      let results := response.Items.map (fun item => getItemDB item.ID sendGet)
      let coursesList := results.filterMap (fun r => r.fst.map (fun course => course.Item))
      (Except.ok coursesList, ExtCall.scanOp :: (results.map (fun r => r.snd)).flatten)

/-- `deleteItemDB`: sends a `DeleteCommand` keyed by `Number(id)`.  The
router passes `Number(requestData.id)` in, on which a second `Number` is
the identity, so the argument is modelled already converted. -/
def deleteItemDB {δ : Type} (id : Option Int) (send : Option Int → Except String δ) :
    Except String δ × List ExtCall :=
  (send id, [ExtCall.deleteOp])

/-- The external world a request runs against: the discovery response and
the document client's behaviour for each of the five commands.  The
successful response types of put, update and delete are abstract because
`requestHandler` only tests those results for an `error` field. -/
structure Backend (π υ δ : Type) where
  discovery : DiscoverResponse
  sendPut : Item → Except String π
  sendUpdate : UpdateCommandArgs → Except String υ
  sendScan : Except String ScanResponse
  sendGet : Option Int → Option GetResponse
  sendDelete : Option Int → Except String δ

/-- `requestHandler`: the action router.  A falsy `query` is rejected with
400 before anything else; `req.query` is an object whenever it is present,
and every object is truthy, so the test is modelled as presence.  The
table name is then resolved and tested for falsiness, and the `switch` on
`requestData.action` (strict string comparison) dispatches to the store
operations.  The JavaScript `allCourses.error` truthiness test is modelled
by the `Except` case split, which is faithful for the nonempty error
messages the store produces.  The second component lists the external
calls performed, in order. -/
def requestHandler {π υ δ : Type} (query : Option Query) (be : Backend π υ δ) :
    HttpResp × List ExtCall :=
  match query with
  | none =>
      ({ statusCode := 400,
         body := { success := false, action := none,
                   error := some "Invalid Request: Action not provided",
                   allCourses := none } }, [])
  | some requestData =>
      let tableName := getTableName be.discovery
      if jsFalsyOptStr tableName then
        ({ statusCode := 500,
           body := { success := false, action := none,
                     error := some "Internal Server Error: Could not find the Database",
                     allCourses := none } }, [ExtCall.discover])
      else
        let requestAction := requestData.action
        let courseId := jsNumber requestData.id
        if requestAction = some "allCourses" then
          match getAllItemsDB be.sendScan be.sendGet with
          | (Except.error e, tr) =>
              ({ statusCode := 500,
                 body := { success := false, action := none,
                           error := some ("Unable to process request for allCourses: " ++ e),
                           allCourses := none } }, ExtCall.discover :: tr)
          | (Except.ok allCourses, tr) =>
              ({ statusCode := 200,
                 body := { success := true, action := some "allCourses",
                           error := none, allCourses := some allCourses } },
               ExtCall.discover :: tr)
        else if requestAction = some "addCourse" then
          match putItemDB requestData be.sendPut with
          | (Except.error e, tr) =>
              ({ statusCode := 500,
                 body := { success := false, action := none,
                           error := some ("Unable to process request for addCourse: " ++ e),
                           allCourses := none } }, ExtCall.discover :: tr)
          | (Except.ok _, tr) =>
              ({ statusCode := 200,
                 body := { success := true, action := some "addCourse",
                           error := none, allCourses := none } }, ExtCall.discover :: tr)
        else if requestAction = some "editCourse" then
          match updateItemDB requestData be.sendUpdate with
          | (Except.error e, tr) =>
              ({ statusCode := 500,
                 body := { success := false, action := none,
                           error := some ("Unable to process request for editCourse: " ++ e),
                           allCourses := none } }, ExtCall.discover :: tr)
          | (Except.ok _, tr) =>
              ({ statusCode := 200,
                 body := { success := true, action := some "editCourse",
                           error := none, allCourses := none } }, ExtCall.discover :: tr)
        else if requestAction = some "removeCourse" then
          match deleteItemDB courseId be.sendDelete with
          | (Except.error e, tr) =>
              ({ statusCode := 500,
                 body := { success := false, action := none,
                           error := some ("Unable to process request for removeCourse: " ++ e),
                           allCourses := none } }, ExtCall.discover :: tr)
          | (Except.ok _, tr) =>
              ({ statusCode := 200,
                 body := { success := true, action := some "removeCourse",
                           error := none, allCourses := none } }, ExtCall.discover :: tr)
        else
          ({ statusCode := 400,
             body := { success := false, action := none,
                       error := some ("Invalid Request: Action " ++ jsToString requestAction
                         ++ " " ++ jsTypeof requestAction ++ " not found"),
                       allCourses := none } }, [ExtCall.discover])

/-- Modelled from the spec: the opaque key-value store (the DynamoDB table)
is not code of this repository; per the spec it is "an opaque key-value
store supporting point get/put/update/delete by numeric key and a
full-table scan with field projection", with `id` uniquely identifying a
record.  It is modelled as a list of records manipulated by the operations
below. -/
abbrev StoreState : Type := List Item

/-- Modelled from the spec: put "overwrites any existing record with the
same id (no existence check)". -/
def storePut (item : Item) (s : StoreState) : StoreState :=
  List.filter (fun it => decide (it.ID ≠ item.ID)) s ++ [item]

/-- Modelled from the spec: point get by key. -/
def storeGet (key : Option Int) (s : StoreState) : Option Item :=
  List.find? (fun it => decide (it.ID = key)) s

/-- Modelled from the spec: update "sets the four non-key fields
unconditionally; returns the new full record".  Since the record has
exactly the key and those four fields, the new full record is determined
by the command's arguments; a missing key is created (upsert), matching
the underlying store's update semantics. -/
def storeUpdate (a : UpdateCommandArgs) (s : StoreState) : StoreState × Item :=
  let newItem : Item :=
    { ID := a.ID, CourseName := a.name, CoverArt := a.coverart,
      CourseUrl := a.url, Author := a.author }
  if (List.find? (fun it => decide (it.ID = a.ID)) s).isSome then
    (List.map (fun it => if it.ID = a.ID then newItem else it) s, newItem)
  else (s ++ [newItem], newItem)

/-- Modelled from the spec: point delete by key (idempotent). -/
def storeDelete (key : Option Int) (s : StoreState) : StoreState :=
  List.filter (fun it => decide (it.ID ≠ key)) s

/-- Modelled from the spec: scan "returns only the key attribute for every
record in the table". -/
def storeScan (s : StoreState) : ScanResponse :=
  { Items := List.map (fun it => { ID := jsValOfKey it.ID }) s }

/-- The document client's `PutCommand` oracle over the modelled store; the
response value is modelled as the post-state of the store. -/
def dynamoPut (s : StoreState) : Item → Except String StoreState :=
  fun item => Except.ok (storePut item s)

/-- The document client's `UpdateCommand` oracle over the modelled store:
the response (under `ReturnValues: ALL_NEW`) is the new record, paired
with the post-state of the store. -/
def dynamoUpdate (s : StoreState) : UpdateCommandArgs → Except String (StoreState × Item) :=
  fun a => Except.ok (storeUpdate a s)

/-- The document client's `GetCommand` oracle over the modelled store: the
call succeeds and carries the record under `Item` when the key is present. -/
def dynamoGet (s : StoreState) : Option Int → Option GetResponse :=
  fun key => some { Item := storeGet key s }

/-- The document client's `DeleteCommand` oracle over the modelled store. -/
def dynamoDelete (s : StoreState) : Option Int → Except String StoreState :=
  fun key => Except.ok (storeDelete key s)

/-- A backend whose document client behaves as the modelled store `s` and
never fails, with discovery response `disc`. -/
def dynamoBackend (disc : DiscoverResponse) (s : StoreState) :
    Backend StoreState (StoreState × Item) StoreState :=
  { discovery := disc
  , sendPut := dynamoPut s
  , sendUpdate := dynamoUpdate s
  , sendScan := Except.ok (storeScan s)
  , sendGet := dynamoGet s
  , sendDelete := dynamoDelete s }

/-- A `GetCommand` oracle over the modelled store that throws for the one
key `k0` and behaves as `dynamoGet s` elsewhere. -/
def dynamoGetFailingAt (s : StoreState) (k0 : Int) : Option Int → Option GetResponse :=
  fun key => if key = some k0 then none else dynamoGet s key

/-- A discovery response resolving the table name "courses-table". -/
def sampleDiscovery : DiscoverResponse :=
  { Instances := some [{ Attributes := { tablename := some "courses-table" } }] }

/-- The query of the spec's concrete `addCourse` scenario. -/
def sampleAddQuery : Query :=
  { action := some "addCourse", id := some "1", courseName := some "Algo",
    courseCoverArt := some "%2Fimg%2Fa.png", courseUrl := some "http%3A%2F%2Fx.test",
    courseAuthor := some "Ada" }

/-- The record the spec's concrete `addCourse` scenario stores. -/
def sampleItem : Item :=
  { ID := some 1, CourseName := some "Algo", CoverArt := "/img/a.png",
    CourseUrl := "http://x.test", Author := some "Ada" }

/-- A query carrying only `action=allCourses`. -/
def allCoursesQuery : Query :=
  { action := some "allCourses", id := none, courseName := none,
    courseCoverArt := none, courseUrl := none, courseAuthor := none }

/-- A query with no parameters at all, as an empty query string yields. -/
def emptyQuery : Query :=
  { action := none, id := none, courseName := none,
    courseCoverArt := none, courseUrl := none, courseAuthor := none }

/-- A query carrying only the unrecognized action value "bogus". -/
def bogusQuery : Query := { emptyQuery with action := some "bogus" }

/-- A course-record literal with all five fields present and a numeric id,
as a successful `addCourse` with a valid payload stores it. -/
def mkCourseItem (n : Int) (nm ca cu au : String) : Item :=
  { ID := some n, CourseName := some nm, CoverArt := ca, CourseUrl := cu, Author := some au }

/-- The item `putItemDB` sends for a payload `q`, once the two URL fields
have been decoded to `ca` and `cu`. -/
def mkPutItem (q : Query) (ca cu : String) : Item :=
  { ID := jsNumber q.id, CourseName := q.courseName, CoverArt := ca,
    CourseUrl := cu, Author := q.courseAuthor }

/-- The update-command arguments `updateItemDB` sends for a payload `q`,
once the two URL fields have been decoded to `ca` and `cu`. -/
def mkUpdateArgs (q : Query) (ca cu : String) : UpdateCommandArgs :=
  { ID := jsNumber q.id, name := q.courseName, coverart := ca,
    url := cu, author := q.courseAuthor }

/-- On a number, the guard `!id && id !== 0` of `getItemDB` never fires:
`0` is falsy but strictly equals `0`, and every other number is truthy. -/
theorem getItemDB_num (n : Int) (send : Option Int → Option GetResponse) :
    getItemDB (JSVal.num n) send = (send (some n), [ExtCall.getOp]) := by
  by_cases h : n = 0 <;>
    simp [getItemDB, jsFalsy, jsStrictEqNumZero, jsNumberOfVal, h]

/-- A record just written by `storePut` is found by `storeGet` at its key. -/
theorem storeGet_storePut (item : Item) (s : StoreState) :
    storeGet item.ID (storePut item s) = some item := by
  unfold storeGet storePut
  induction s with
  | nil => simp
  | cons a s ih =>
      by_cases h : a.ID = item.ID
      · rw [List.filter_cons, if_neg (by simp [h])]
        exact ih
      · rw [List.filter_cons, if_pos (by simp [h]), List.cons_append,
          List.find?_cons_of_neg _ (by simp [h])]
        exact ih

/-- Replacing every record at key `k` by a record `v` with that key makes
`find?` at `k` return `v`, provided some record at `k` existed. -/
theorem find?_map_replace (k : Option Int) (v : Item) (s : List Item)
    (hv : v.ID = k)
    (h : (List.find? (fun it => decide (it.ID = k)) s).isSome = true) :
    List.find? (fun it => decide (it.ID = k))
      (List.map (fun it => if it.ID = k then v else it) s) = some v := by
  induction s with
  | nil => simp at h
  | cons a s ih =>
      by_cases ha : a.ID = k
      · rw [List.map_cons, if_pos ha, List.find?_cons_of_pos _ (by simp [hv])]
      · rw [List.find?_cons_of_neg _ (by simp [ha])] at h
        rw [List.map_cons, if_neg ha, List.find?_cons_of_neg _ (by simp [ha])]
        exact ih h

/-- The length of a `filterMap` is the length of the list minus the number
of elements mapped to `none`, counted by any predicate that characterizes
them on the list. -/
theorem length_filterMap_eq_sub {α β : Type} (f : α → Option β) (p : α → Bool)
    (l : List α) (h : ∀ a ∈ l, (f a = none ↔ p a = true)) :
    (l.filterMap f).length = l.length - (l.filter p).length := by
  induction l with
  | nil => simp
  | cons a l ih =>
      have hl : ∀ x ∈ l, (f x = none ↔ p x = true) :=
        fun x hx => h x (List.mem_cons_of_mem a hx)
      have ha := h a (List.mem_cons_self a l)
      have hle := List.length_filter_le p l
      by_cases hp : p a = true
      · rw [List.filterMap_cons, ha.mpr hp, List.filter_cons, if_pos hp,
          List.length_cons, List.length_cons, ih hl]
        omega
      · obtain ⟨b, hb⟩ : ∃ b, f a = some b := by
          cases hfa : f a with
          | none => exact absurd (ha.mp hfa) hp
          | some b => exact ⟨b, rfl⟩
        rw [List.filterMap_cons, hb, List.filter_cons, if_neg hp,
          List.length_cons, List.length_cons, ih hl]
        omega

/-- Claim C3: for every non-empty query, if table resolution returns null,
the router returns status 500 with error "Internal Server Error: Could not
find the Database" for every action value, and no store operation is
invoked (the call trace holds the discovery call only). -/
theorem resolutionFailure_500_before_store {π υ δ : Type} (q : Query) (be : Backend π υ δ)
    (h : getTableName be.discovery = none) :
    requestHandler (some q) be =
      ({ statusCode := 500,
         body := { success := false, action := none,
                   error := some "Internal Server Error: Could not find the Database",
                   allCourses := none } }, [ExtCall.discover]) := by
  simp [requestHandler, h, jsFalsyOptStr]

/-- Witness for C3 at a concrete input: a well-formed `allCourses` request
against a discovery response with an empty instance list. -/
theorem resolutionFailure_500_before_store_witness :
    requestHandler (some allCoursesQuery) (dynamoBackend { Instances := some [] } [sampleItem]) =
      ({ statusCode := 500,
         body := { success := false, action := none,
                   error := some "Internal Server Error: Could not find the Database",
                   allCourses := none } }, [ExtCall.discover]) :=
  resolutionFailure_500_before_store allCoursesQuery
    (dynamoBackend { Instances := some [] } [sampleItem]) rfl

/-- Claim C4 (counterexample): a present-but-empty query object (no query
parameters at all) does not take the "Action not provided" branch: the
table is resolved (the trace holds the discovery call) and the default
switch branch answers 400 "Invalid Request: Action undefined undefined not
found", because an empty JavaScript object is truthy so `!query` is false. -/
theorem emptyQueryObject_not_actionNotProvided :
    (requestHandler (some emptyQuery) (dynamoBackend sampleDiscovery [])).snd
        = [ExtCall.discover] ∧
    (requestHandler (some emptyQuery) (dynamoBackend sampleDiscovery [])).fst
        = { statusCode := 400,
            body := { success := false, action := none,
                      error := some "Invalid Request: Action undefined undefined not found",
                      allCourses := none } } ∧
    (requestHandler (some emptyQuery) (dynamoBackend sampleDiscovery [])).fst.body.error
        ≠ some "Invalid Request: Action not provided" := by
  refine ⟨by decide, by decide, by decide⟩

/-- Claim C4 (amended): only when the query object itself is absent
(undefined/null) does the router return 400 with the structured body
"Invalid Request: Action not provided", without resolving the table or
calling the store (the call trace is empty); a present-but-empty query
object instead resolves the table and falls to the unknown-action branch. -/
theorem absentQuery_400_actionNotProvided {π υ δ : Type} (be : Backend π υ δ) :
    requestHandler none be =
      ({ statusCode := 400,
         body := { success := false, action := none,
                   error := some "Invalid Request: Action not provided",
                   allCourses := none } }, []) := rfl

/-- Claim C7: for every query whose action value is not one of the four
recognized ones (including "bogus", the empty string, and an absent
action), when table resolution succeeds the router returns status 400 with
success false and an error message naming the offending action value and
its runtime type. -/
theorem unknownAction_400_names_value_and_type {π υ δ : Type} (q : Query)
    (be : Backend π υ δ)
    (hdisc : jsFalsyOptStr (getTableName be.discovery) = false)
    (h1 : q.action ≠ some "allCourses") (h2 : q.action ≠ some "addCourse")
    (h3 : q.action ≠ some "editCourse") (h4 : q.action ≠ some "removeCourse") :
    requestHandler (some q) be =
      ({ statusCode := 400,
         body := { success := false, action := none,
                   error := some ("Invalid Request: Action " ++ jsToString q.action
                     ++ " " ++ jsTypeof q.action ++ " not found"),
                   allCourses := none } }, [ExtCall.discover]) := by
  simp [requestHandler, hdisc, h1, h2, h3, h4]

/-- Witness for C7 at the spec's concrete scenario `action=bogus`: the
error string is exactly "Invalid Request: Action bogus string not found". -/
theorem unknownAction_400_witness :
    requestHandler (some bogusQuery) (dynamoBackend sampleDiscovery []) =
      ({ statusCode := 400,
         body := { success := false, action := none,
                   error := some "Invalid Request: Action bogus string not found",
                   allCourses := none } }, [ExtCall.discover]) := by
  have h := unknownAction_400_names_value_and_type bogusQuery
    (dynamoBackend sampleDiscovery []) (by decide) (by decide) (by decide)
    (by decide) (by decide)
  rw [h]
  decide

/-- Claim C8: `getItemDB` returns null immediately and makes no store call
whenever `id` is missing (absent/undefined, null, or the empty string, all
falsy and not strictly equal to 0), but does make the store call when `id`
is the number 0. -/
theorem getItemDB_missing_id_no_call (id : JSVal)
    (send : Option Int → Option GetResponse)
    (h1 : jsFalsy id = true) (h2 : jsStrictEqNumZero id = false) :
    getItemDB id send = (none, []) ∧
    getItemDB (JSVal.num 0) send = (send (some 0), [ExtCall.getOp]) := by
  constructor
  · simp [getItemDB, h1, h2]
  · simp [getItemDB, jsFalsy, jsStrictEqNumZero, jsNumberOfVal]

/-- Witness for C8 at `id = undefined` (and the zero-id call against the
modelled store). -/
theorem getItemDB_missing_id_no_call_witness :
    getItemDB JSVal.undef (dynamoGet []) = (none, []) ∧
    getItemDB (JSVal.num 0) (dynamoGet []) = (dynamoGet [] (some 0), [ExtCall.getOp]) :=
  getItemDB_missing_id_no_call JSVal.undef (dynamoGet []) rfl rfl

/-- Claim C9: when the discovery response does return at least one instance
but the first instance's attribute map has no `tablename` attribute or has
it as the empty string, the router takes the same 500 "Could not find the
Database" branch as when no instance is found, because the check is on the
falsiness of the resolved name. -/
theorem missingTablenameAttribute_same_500 {π υ δ : Type} (q : Query)
    (be : Backend π υ δ) (inst : ServiceInstance) (rest : List ServiceInstance)
    (hinst : be.discovery.Instances = some (inst :: rest))
    (hattr : inst.Attributes.tablename = none ∨ inst.Attributes.tablename = some "") :
    requestHandler (some q) be =
      ({ statusCode := 500,
         body := { success := false, action := none,
                   error := some "Internal Server Error: Could not find the Database",
                   allCourses := none } }, [ExtCall.discover]) := by
  have ht : getTableName be.discovery = inst.Attributes.tablename := by
    simp [getTableName, hinst]
  have hf : jsFalsyOptStr (getTableName be.discovery) = true := by
    rw [ht]
    rcases hattr with h | h <;> simp [h, jsFalsyOptStr]
  simp [requestHandler, hf]

/-- Witness for C9: one discovered instance whose attribute map lacks
`tablename`, under a well-formed `allCourses` request. -/
theorem missingTablenameAttribute_same_500_witness :
    requestHandler (some allCoursesQuery)
      (dynamoBackend { Instances := some [{ Attributes := { tablename := none } }] } []) =
      ({ statusCode := 500,
         body := { success := false, action := none,
                   error := some "Internal Server Error: Could not find the Database",
                   allCourses := none } }, [ExtCall.discover]) :=
  missingTablenameAttribute_same_500 allCoursesQuery
    (dynamoBackend { Instances := some [{ Attributes := { tablename := none } }] } [])
    { Attributes := { tablename := none } } [] rfl (Or.inl rfl)

/-- Claim C6: every put or update that writes a record stores, in the
`CoverArt` and `CourseUrl` attributes, exactly the percent-decoded forms
of the submitted `courseCoverArt` and `courseUrl`; every record of the
post-state either was already in the store or carries the decoded values. -/
theorem putUpdate_store_decoded_urls (s : StoreState) (q : Query)
    (ca cu ca' cu' : String)
    (hca : q.courseCoverArt = some ca) (hcu : q.courseUrl = some cu)
    (hca' : percentDecodeStr ca = some ca') (hcu' : percentDecodeStr cu = some cu') :
    (putItemDB q (dynamoPut s) = (Except.ok (storePut (mkPutItem q ca' cu') s), [ExtCall.putOp]) ∧
       (mkPutItem q ca' cu').CoverArt = ca' ∧ (mkPutItem q ca' cu').CourseUrl = cu' ∧
       ∀ it ∈ storePut (mkPutItem q ca' cu') s,
         it ∈ s ∨ (it.CoverArt = ca' ∧ it.CourseUrl = cu')) ∧
    (updateItemDB q (dynamoUpdate s) =
         (Except.ok (storeUpdate (mkUpdateArgs q ca' cu') s), [ExtCall.updateOp]) ∧
       (storeUpdate (mkUpdateArgs q ca' cu') s).snd.CoverArt = ca' ∧
       (storeUpdate (mkUpdateArgs q ca' cu') s).snd.CourseUrl = cu' ∧
       ∀ it ∈ (storeUpdate (mkUpdateArgs q ca' cu') s).fst,
         it ∈ s ∨ (it.CoverArt = ca' ∧ it.CourseUrl = cu')) := by
  constructor
  · refine ⟨?_, rfl, rfl, ?_⟩
    · simp [putItemDB, hca, hcu, decodeURIComponent, hca', hcu', dynamoPut, mkPutItem]
    · intro it hit
      simp only [storePut, List.mem_append, List.mem_filter,
        List.mem_singleton] at hit
      rcases hit with ⟨h, _⟩ | rfl
      · exact Or.inl h
      · exact Or.inr ⟨rfl, rfl⟩
  · refine ⟨?_, ?_, ?_, ?_⟩
    · simp [updateItemDB, hca, hcu, decodeURIComponent, hca', hcu', dynamoUpdate, mkUpdateArgs]
    · simp only [storeUpdate]
      split <;> rfl
    · simp only [storeUpdate]
      split <;> rfl
    · intro it hit
      simp only [storeUpdate] at hit
      split at hit
      · simp only [List.mem_map] at hit
        obtain ⟨x, hx, hfx⟩ := hit
        by_cases hxid : x.ID = (mkUpdateArgs q ca' cu').ID
        · rw [if_pos hxid] at hfx
          subst hfx
          exact Or.inr ⟨rfl, rfl⟩
        · rw [if_neg hxid] at hfx
          subst hfx
          exact Or.inl hx
      · simp only [List.mem_append, List.mem_singleton] at hit
        rcases hit with h | rfl
        · exact Or.inl h
        · exact Or.inr ⟨rfl, rfl⟩

/-- Witness for C6 at the spec's concrete `addCourse` payload against the
empty store: both URL-like fields are stored percent-decoded. -/
theorem putUpdate_store_decoded_urls_witness :
    (putItemDB sampleAddQuery (dynamoPut []) =
         (Except.ok (storePut (mkPutItem sampleAddQuery "/img/a.png" "http://x.test") []),
          [ExtCall.putOp]) ∧
       (mkPutItem sampleAddQuery "/img/a.png" "http://x.test").CoverArt = "/img/a.png" ∧
       (mkPutItem sampleAddQuery "/img/a.png" "http://x.test").CourseUrl = "http://x.test" ∧
       ∀ it ∈ storePut (mkPutItem sampleAddQuery "/img/a.png" "http://x.test") [],
         it ∈ ([] : StoreState) ∨
           (it.CoverArt = "/img/a.png" ∧ it.CourseUrl = "http://x.test")) ∧
    (updateItemDB sampleAddQuery (dynamoUpdate []) =
         (Except.ok (storeUpdate (mkUpdateArgs sampleAddQuery "/img/a.png" "http://x.test") []),
          [ExtCall.updateOp]) ∧
       (storeUpdate (mkUpdateArgs sampleAddQuery "/img/a.png" "http://x.test") []).snd.CoverArt
           = "/img/a.png" ∧
       (storeUpdate (mkUpdateArgs sampleAddQuery "/img/a.png" "http://x.test") []).snd.CourseUrl
           = "http://x.test" ∧
       ∀ it ∈ (storeUpdate (mkUpdateArgs sampleAddQuery "/img/a.png" "http://x.test") []).fst,
         it ∈ ([] : StoreState) ∨
           (it.CoverArt = "/img/a.png" ∧ it.CourseUrl = "http://x.test")) :=
  putUpdate_store_decoded_urls [] sampleAddQuery "%2Fimg%2Fa.png" "http%3A%2F%2Fx.test"
    "/img/a.png" "http://x.test" rfl rfl (by decide) (by decide)

/-- Claim C10: when every per-key get of a listing succeeds (returns a
truthy response), nothing is dropped — the result has one entry per
scanned key — and a successful response that carries no `Item` contributes
`undefined` (`none`) to the result list instead of being dropped; the
silent-drop policy applies only to a `getItemDB` that returned null. -/
theorem allCourses_keeps_undefined_for_missing_record (resp : ScanResponse)
    (sendGet : Option Int → Option GetResponse)
    (hall : ∀ item ∈ resp.Items, ((getItemDB item.ID sendGet).fst).isSome = true) :
    ∃ l, (getAllItemsDB (Except.ok resp) sendGet).fst = Except.ok l ∧
      l.length = resp.Items.length ∧
      ∀ item ∈ resp.Items,
        (getItemDB item.ID sendGet).fst = some { Item := none } → none ∈ l := by
  refine ⟨_, rfl, ?_, ?_⟩
  · rw [List.filterMap_map]
    rw [length_filterMap_eq_sub _ (fun x => false) resp.Items ?_]
    · simp
    · intro a ha
      have hs := hall a ha
      simp only [Function.comp_apply, Option.map_eq_none']
      constructor
      · intro hnone
        rw [hnone] at hs
        simp at hs
      · intro hf
        simp at hf
  · intro item hmem hget
    rw [List.filterMap_map, List.mem_filterMap]
    refine ⟨item, hmem, ?_⟩
    simp [Function.comp, hget]

/-- Witness for C10: one scanned key whose get succeeds with a response
carrying no `Item`; the result list is `[undefined]`, not `[]`. -/
theorem allCourses_keeps_undefined_witness :
    ∃ l, (getAllItemsDB (Except.ok { Items := [{ ID := JSVal.num 5 }] })
            (fun _ => some { Item := none })).fst = Except.ok l ∧
      l.length = ({ Items := [{ ID := JSVal.num 5 }] } : ScanResponse).Items.length ∧
      ∀ item ∈ ({ Items := [{ ID := JSVal.num 5 }] } : ScanResponse).Items,
        (getItemDB item.ID (fun _ => some { Item := none })).fst = some { Item := none } →
          none ∈ l :=
  allCourses_keeps_undefined_for_missing_record
    { Items := [{ ID := JSVal.num 5 }] } (fun _ => some { Item := none }) (by decide)

/-- Claim C2: over a table of N records, if the per-key get throws for
exactly one of the N keys during list aggregation, the aggregation
succeeds with N-1 records, and the router still answers status 200 with
no partial-failure indication. -/
theorem allCourses_one_failing_get_dropped_silently (s : StoreState) (k0 : Int)
    (disc : DiscoverResponse)
    (hids : ∀ it ∈ s, (Item.ID it).isSome = true)
    (hone : (List.filter (fun it => decide (Item.ID it = some k0)) s).length = 1)
    (hdisc : jsFalsyOptStr (getTableName disc) = false) :
    ∃ l, (getAllItemsDB (Except.ok (storeScan s)) (dynamoGetFailingAt s k0)).fst
          = Except.ok l ∧
      l.length = s.length - 1 ∧
      (requestHandler (some allCoursesQuery)
          { discovery := disc, sendPut := dynamoPut s, sendUpdate := dynamoUpdate s,
            sendScan := Except.ok (storeScan s), sendGet := dynamoGetFailingAt s k0,
            sendDelete := dynamoDelete s }).fst.statusCode = 200 := by
  refine ⟨_, rfl, ?_, ?_⟩
  · simp only [storeScan]
    rw [List.filterMap_map, List.filterMap_map,
      length_filterMap_eq_sub _ (fun it => decide (Item.ID it = some k0)) s ?_]
    · rw [hone]
    · intro a ha
      obtain ⟨m, hm⟩ := Option.isSome_iff_exists.mp (hids a ha)
      by_cases hk : m = k0
      · simp [Function.comp, hm, jsValOfKey, getItemDB_num, dynamoGetFailingAt, hk]
      · simp [Function.comp, hm, jsValOfKey, getItemDB_num, dynamoGetFailingAt, hk,
          dynamoGet]
  · simp [requestHandler, hdisc, allCoursesQuery, getAllItemsDB]

/-- Witness for C2: a two-record table whose key 2 fails to fetch; the
list comes back with one record and the router answers 200. -/
theorem allCourses_one_failing_get_witness :
    ∃ l, (getAllItemsDB
            (Except.ok (storeScan [mkCourseItem 1 "A" "a" "b" "C", mkCourseItem 2 "D" "e" "f" "G"]))
            (dynamoGetFailingAt [mkCourseItem 1 "A" "a" "b" "C", mkCourseItem 2 "D" "e" "f" "G"] 2)).fst
          = Except.ok l ∧
      l.length = ([mkCourseItem 1 "A" "a" "b" "C", mkCourseItem 2 "D" "e" "f" "G"] : StoreState).length - 1 ∧
      (requestHandler (some allCoursesQuery)
          { discovery := sampleDiscovery,
            sendPut := dynamoPut [mkCourseItem 1 "A" "a" "b" "C", mkCourseItem 2 "D" "e" "f" "G"],
            sendUpdate := dynamoUpdate [mkCourseItem 1 "A" "a" "b" "C", mkCourseItem 2 "D" "e" "f" "G"],
            sendScan := Except.ok (storeScan [mkCourseItem 1 "A" "a" "b" "C", mkCourseItem 2 "D" "e" "f" "G"]),
            sendGet := dynamoGetFailingAt [mkCourseItem 1 "A" "a" "b" "C", mkCourseItem 2 "D" "e" "f" "G"] 2,
            sendDelete := dynamoDelete [mkCourseItem 1 "A" "a" "b" "C", mkCourseItem 2 "D" "e" "f" "G"] }).fst.statusCode
        = 200 :=
  allCourses_one_failing_get_dropped_silently
    [mkCourseItem 1 "A" "a" "b" "C", mkCourseItem 2 "D" "e" "f" "G"] 2 sampleDiscovery
    (by decide) (by decide) (by decide)

/-- Claim C1: for a valid `addCourse` payload (all five fields present,
numeric id, well-formed percent-encoding), the put succeeds and writes the
record with the two URL fields percent-decoded, and a subsequent
`allCourses` aggregation over the resulting store returns a list
containing exactly that record. -/
theorem addCourse_then_allCourses_contains (s : StoreState) (q : Query)
    (idStr nm ca cu au ca' cu' : String) (n : Int)
    (hid : q.id = some idStr) (hnm : q.courseName = some nm)
    (hca : q.courseCoverArt = some ca) (hcu : q.courseUrl = some cu)
    (hau : q.courseAuthor = some au)
    (hn : jsNumberOfStr idStr = some n)
    (hca' : percentDecodeStr ca = some ca') (hcu' : percentDecodeStr cu = some cu') :
    putItemDB q (dynamoPut s) =
        (Except.ok (storePut (mkCourseItem n nm ca' cu' au) s), [ExtCall.putOp]) ∧
    ∃ l, (getAllItemsDB (Except.ok (storeScan (storePut (mkCourseItem n nm ca' cu' au) s)))
            (dynamoGet (storePut (mkCourseItem n nm ca' cu' au) s))).fst = Except.ok l ∧
      some (mkCourseItem n nm ca' cu' au) ∈ l := by
  constructor
  · simp [putItemDB, hid, hca, hcu, decodeURIComponent, hca', hcu', dynamoPut,
      jsNumber, hn, hnm, hau, mkCourseItem]
  · refine ⟨_, rfl, ?_⟩
    simp only [storeScan]
    rw [List.filterMap_map, List.filterMap_map, List.mem_filterMap]
    refine ⟨mkCourseItem n nm ca' cu' au, ?_, ?_⟩
    · simp [storePut]
    · have hg : storeGet (some n) (storePut (mkCourseItem n nm ca' cu' au) s)
          = some (mkCourseItem n nm ca' cu' au) := by
        have h := storeGet_storePut (mkCourseItem n nm ca' cu' au) s
        simpa [mkCourseItem] using h
      have hIDm : (mkCourseItem n nm ca' cu' au).ID = some n := rfl
      simp [Function.comp, hIDm, jsValOfKey, getItemDB_num, dynamoGet, hg]

/-- Witness for C1 at the spec's concrete scenario: adding course id 1
("Algo", encoded cover art and url, "Ada") to the empty store, then
listing, yields a list containing the decoded record. -/
theorem addCourse_then_allCourses_contains_witness :
    putItemDB sampleAddQuery (dynamoPut []) =
        (Except.ok (storePut (mkCourseItem 1 "Algo" "/img/a.png" "http://x.test" "Ada") []),
         [ExtCall.putOp]) ∧
    ∃ l, (getAllItemsDB
            (Except.ok (storeScan (storePut (mkCourseItem 1 "Algo" "/img/a.png" "http://x.test" "Ada") [])))
            (dynamoGet (storePut (mkCourseItem 1 "Algo" "/img/a.png" "http://x.test" "Ada") []))).fst
          = Except.ok l ∧
      some (mkCourseItem 1 "Algo" "/img/a.png" "http://x.test" "Ada") ∈ l :=
  addCourse_then_allCourses_contains [] sampleAddQuery "1" "Algo" "%2Fimg%2Fa.png"
    "http%3A%2F%2Fx.test" "Ada" "/img/a.png" "http://x.test" 1
    rfl rfl rfl rfl rfl (by decide) (by decide) (by decide)

/-- Claim C5: for an existing id and an `editCourse` payload (all fields
present, numeric id, well-formed percent-encoding), the update succeeds,
setting exactly the four non-key fields and leaving the key field `ID`
unchanged, and a subsequent get of that id returns the new values. -/
theorem editCourse_updates_exactly_nonkey_fields (s : StoreState) (q : Query)
    (idStr nm ca cu au ca' cu' : String) (n : Int) (old : Item)
    (hid : q.id = some idStr) (hnm : q.courseName = some nm)
    (hca : q.courseCoverArt = some ca) (hcu : q.courseUrl = some cu)
    (hau : q.courseAuthor = some au)
    (hn : jsNumberOfStr idStr = some n)
    (hca' : percentDecodeStr ca = some ca') (hcu' : percentDecodeStr cu = some cu')
    (hold : storeGet (some n) s = some old) :
    updateItemDB q (dynamoUpdate s) =
      (Except.ok
        (List.map (fun it => if it.ID = some n then mkCourseItem n nm ca' cu' au else it) s,
         mkCourseItem n nm ca' cu' au),
       [ExtCall.updateOp]) ∧
    (mkCourseItem n nm ca' cu' au).ID = old.ID ∧
    getItemDB (JSVal.num n)
        (dynamoGet (List.map (fun it => if it.ID = some n then mkCourseItem n nm ca' cu' au else it) s)) =
      (some { Item := some (mkCourseItem n nm ca' cu' au) }, [ExtCall.getOp]) := by
  have hold' : List.find? (fun it => decide (Item.ID it = some n)) s = some old := by
    simpa [storeGet] using hold
  have hp := List.find?_some hold'
  have hID : old.ID = some n := by simpa using hp
  refine ⟨?_, ?_, ?_⟩
  · simp [updateItemDB, hid, hca, hcu, decodeURIComponent, hca', hcu', dynamoUpdate,
      storeUpdate, jsNumber, hn, hnm, hau, mkCourseItem, hold']
  · simp [mkCourseItem, hID]
  · have hrep := find?_map_replace (some n) (mkCourseItem n nm ca' cu' au) s
      (by simp [mkCourseItem]) (by simp [hold'])
    rw [getItemDB_num]
    simp [dynamoGet, storeGet, hrep]

/-- Witness for C5: editing course id 1 in a one-record store replaces the
four non-key fields; the subsequent get returns the new record with the
same id. -/
theorem editCourse_updates_exactly_nonkey_fields_witness :
    updateItemDB sampleAddQuery (dynamoUpdate [mkCourseItem 1 "Old" "o" "p" "Q"]) =
      (Except.ok
        (List.map
          (fun it => if it.ID = some 1 then mkCourseItem 1 "Algo" "/img/a.png" "http://x.test" "Ada" else it)
          [mkCourseItem 1 "Old" "o" "p" "Q"],
         mkCourseItem 1 "Algo" "/img/a.png" "http://x.test" "Ada"),
       [ExtCall.updateOp]) ∧
    (mkCourseItem 1 "Algo" "/img/a.png" "http://x.test" "Ada").ID
        = (mkCourseItem 1 "Old" "o" "p" "Q").ID ∧
    getItemDB (JSVal.num 1)
        (dynamoGet
          (List.map
            (fun it => if it.ID = some 1 then mkCourseItem 1 "Algo" "/img/a.png" "http://x.test" "Ada" else it)
            [mkCourseItem 1 "Old" "o" "p" "Q"])) =
      (some { Item := some (mkCourseItem 1 "Algo" "/img/a.png" "http://x.test" "Ada") },
       [ExtCall.getOp]) :=
  editCourse_updates_exactly_nonkey_fields [mkCourseItem 1 "Old" "o" "p" "Q"] sampleAddQuery
    "1" "Algo" "%2Fimg%2Fa.png" "http%3A%2F%2Fx.test" "Ada" "/img/a.png" "http://x.test" 1
    (mkCourseItem 1 "Old" "o" "p" "Q")
    rfl rfl rfl rfl rfl (by decide) (by decide) (by decide) (by decide)
